import Mathlib

/-!
Shallow embedding of the stock-depletion forecasting engine of
`backend/src/routes/predictions.js`, together with theorems checking the
natural-language specification against it.

Modelling conventions:
* JavaScript numbers are modelled as rationals (`ℚ`); `Math.round x` is
  `⌊x + 1/2⌋` (round half toward positive infinity, as in JS for the
  values arising here) and `Math.sqrt` is modelled by `Rat.sqrt`, which
  agrees with the real square root on perfect squares and is nonnegative;
  the theorems below use only those two facts about it.
* Calendar dates are modelled as integer day offsets from "today"
  (day `0`); `date('now', '+7 days')` becomes the integer `7`.
* A sale event's only field used by the engine is `quantity_sold`, so a
  sales history is a `List ℚ` in ascending date order.
* SQL `NULL` becomes `Option.none`; a comparison with `NULL` is false,
  and in SQLite's `ORDER BY ... ASC` a `NULL` key sorts before any
  non-`NULL` key.
-/

namespace Inventory

/-- JavaScript `Math.round`: floor of the value plus one half. -/
def jsRound (q : ℚ) : ℤ := ⌊q + 1/2⌋

/-- Two-decimal output rounding `Math.round(x * 100) / 100` used by
the predictor. -/
def round2 (q : ℚ) : ℚ := (jsRound (q * 100) : ℚ) / 100

/-- JavaScript `array.slice(-n)`: the last `n` elements (the whole list
when `n` exceeds the length).  The engine only calls it with `n = 7`,
`n = 14`, or `n` equal to the list length, so the JS corner case
`slice(-0)` is unreachable. -/
def sliceLast (l : List ℚ) (n : ℕ) : List ℚ := l.drop (l.length - n)

/-- Function `calculateMovingAverage(salesData, periods)` of predictions.js:
`0` when fewer than `periods` data points, otherwise the mean of the last
`periods` values. -/
def calculateMovingAverage (salesData : List ℚ) (periods : ℕ) : ℚ :=
  if salesData.length < periods then 0
  else (sliceLast salesData periods).sum / (periods : ℚ)

/-- Local `sumX` of `calculateLinearTrend`: the sum of the 0-based indices. -/
def trendSumX (l : List ℚ) : ℚ :=
  Finset.sum (Finset.range l.length) fun i => (i : ℚ)

/-- Local `sumY` of `calculateLinearTrend`: the sum of the quantities. -/
def trendSumY (l : List ℚ) : ℚ :=
  Finset.sum (Finset.range l.length) fun i => l.getD i 0

/-- Local `sumXY` of `calculateLinearTrend`. -/
def trendSumXY (l : List ℚ) : ℚ :=
  Finset.sum (Finset.range l.length) fun i => (i : ℚ) * l.getD i 0

/-- Local `sumX2` of `calculateLinearTrend`. -/
def trendSumX2 (l : List ℚ) : ℚ :=
  Finset.sum (Finset.range l.length) fun i => (i : ℚ) * (i : ℚ)

/-- The denominator `n * sumX2 - sumX * sumX` of the least-squares slope
in `calculateLinearTrend`. -/
def trendDenominator (l : List ℚ) : ℚ :=
  (l.length : ℚ) * trendSumX2 l - trendSumX l * trendSumX l

/-- Function `calculateLinearTrend(salesData)` of predictions.js: `0` for fewer
than 2 points, otherwise the ordinary least-squares slope of quantity
against the 0-based index. -/
def calculateLinearTrend (l : List ℚ) : ℚ :=
  if l.length < 2 then 0
  else ((l.length : ℚ) * trendSumXY l - trendSumX l * trendSumY l) / trendDenominator l

/-- Function `calculateSeasonalFactor(salesData)` of predictions.js: `1.0` for
fewer than 14 points; otherwise the ratio of the recent 7-point average
to the whole-history average, clamped to `[0.5, 2.0]`, or `1.0` when the
historical average is not positive. -/
def calculateSeasonalFactor (salesData : List ℚ) : ℚ :=
  if salesData.length < 14 then 1
  else
    let recentAvg := calculateMovingAverage (sliceLast salesData 7) 7
    let historicalAvg := calculateMovingAverage salesData salesData.length
    if 0 < historicalAvg then max (1/2) (min 2 (recentAvg / historicalAvg)) else 1

/-- Function `calculateVariability(salesData)` of predictions.js: `0` for fewer
than 2 points, otherwise the population standard deviation (`Math.sqrt`
modelled by `Rat.sqrt`). -/
def calculateVariability (salesData : List ℚ) : ℚ :=
  if salesData.length < 2 then 0
  else
    let mean := salesData.sum / (salesData.length : ℚ)
    let variance := (salesData.map fun q => (q - mean) ^ 2).sum / (salesData.length : ℚ)
    Rat.sqrt variance

/-- The result record of `predictStockDepletion`.  `predictedRunOutDate`
is a day offset from today, `none` when the route stores SQL `NULL`. -/
structure PredictionResult where
  salesVelocity : ℚ
  predictedRunOutDate : Option ℤ
  confidenceScore : ℚ
  seasonalFactor : ℚ
deriving DecidableEq, Repr

/-- The (unrounded) `salesVelocity` local of `predictStockDepletion`:
`max(0.1, (movingAverage + trend * 0.5) * seasonalFactor)` where the
trend is taken over the last 14 entries. -/
def rawSalesVelocity (salesData : List ℚ) : ℚ :=
  max (1/10)
    ((calculateMovingAverage salesData 7 + calculateLinearTrend (sliceLast salesData 14) * (1/2))
      * calculateSeasonalFactor salesData)

/-- Function `predictStockDepletion(currentStock, salesData, reorderPoint)` of
predictions.js.  The `reorderPoint` argument is accepted but unused by
the source function, exactly as in the code. -/
def predictStockDepletion (currentStock : ℚ) (salesData : List ℚ) (reorderPoint : ℚ) :
    PredictionResult :=
  if salesData.length = 0 then
    { salesVelocity := 0, predictedRunOutDate := none, confidenceScore := 0, seasonalFactor := 1 }
  else
    let salesVelocity := rawSalesVelocity salesData
    let daysUntilRunOut := currentStock / salesVelocity
    let predictedRunOutDate : Option ℤ :=
      if 0 < daysUntilRunOut ∧ daysUntilRunOut < 365 then some ⌈daysUntilRunOut⌉ else none
    let dataPoints : ℚ := salesData.length
    let variability := calculateVariability salesData
    let baseConfidence := min (dataPoints / 30) 1
    let variabilityPenalty := max 0 (1 - variability / 5)
    { salesVelocity := round2 salesVelocity
      predictedRunOutDate := predictedRunOutDate
      confidenceScore := round2 (baseConfidence * variabilityPenalty)
      seasonalFactor := round2 (calculateSeasonalFactor salesData) }

/-- One point of the chart produced by `GET /chart/:id`. -/
structure ChartPoint where
  date : ℤ
  actual : Option ℚ
  predicted : Option ℚ
  threshold : ℚ
deriving DecidableEq, Repr

/-- The body of the chart loop of `GET /chart/:id` at day offset `i`:
for `i ≤ 0` the reconstructed `actual` value (and `predicted` anchored to
current stock at `i = 0`), for `i > 0` the projected `predicted` value.
`f` is the daily-sales lookup `salesMap[dateStr] || 0` as a total map
defaulting to `0`. -/
def chartPoint (cs rp v : ℚ) (f : ℤ → ℚ) (days : ℕ) (i : ℤ) : ChartPoint :=
  if i ≤ 0 then
    { date := i
      actual := some (cs + f i * ((days : ℚ) + (i : ℚ)))
      predicted := if i = 0 then some cs else none
      threshold := rp }
  else
    { date := i
      actual := none
      predicted := some (max 0 (cs - v * (i : ℚ)))
      threshold := rp }

/-- The chart series of `GET /chart/:id`: one point per day offset `i`
with `-days ≤ i ≤ days`, in ascending order. -/
def chartData (cs rp v : ℚ) (f : ℤ → ℚ) (days : ℕ) : List ChartPoint :=
  (List.range (2 * days + 1)).map fun (k : ℕ) =>
    chartPoint cs rp v f days ((k : ℤ) - (days : ℤ))

/-- The four alert tiers of the system. -/
inductive AlertLevel
  | safe
  | low
  | critical
  | warning
deriving DecidableEq, Repr

/-- SQL comparison `runOut <= date('now', ('+' ++ toString n) ++ ' days')` on a
nullable date: false when the date is `NULL`. -/
def dueWithin (runOut : Option ℤ) (n : ℤ) : Bool :=
  match runOut with
  | some d => d ≤ n
  | none => false

/-- The `alert_level` CASE of `GET /alerts/low-stock` (also the tier
logic of the inventory listing, which lacks the `warning` arm because it
omits the prediction comparison). -/
def alertLevel (stock rp : ℤ) (runOut : Option ℤ) : AlertLevel :=
  if stock ≤ 0 then .critical
  else if stock ≤ rp then .low
  else if dueWithin runOut 7 then .warning
  else .safe

/-- One row joined by `GET /alerts/low-stock`: an inventory item with the
`predicted_run_out_date` of its latest prediction (`none` when there is
no prediction or the stored date is `NULL`). -/
structure AlertItem where
  currentStock : ℤ
  reorderPoint : ℤ
  runOutDate : Option ℤ
deriving DecidableEq, Repr

/-- The tier of an alert row. -/
def alertTier (a : AlertItem) : AlertLevel :=
  alertLevel a.currentStock a.reorderPoint a.runOutDate

/-- The WHERE clause of `GET /alerts/low-stock`:
`current_stock <= reorder_point OR predicted_run_out_date <= date('now','+14 days')`. -/
def includedInAlerts (a : AlertItem) : Bool :=
  a.currentStock ≤ a.reorderPoint || dueWithin a.runOutDate 14

/-- The CASE expression of the ORDER BY clause of `GET /alerts/low-stock`:
`1` when stock ≤ 0, `2` when stock ≤ reorder point, else `3`. -/
def sortRank (a : AlertItem) : ℕ :=
  if a.currentStock ≤ 0 then 1 else if a.currentStock ≤ a.reorderPoint then 2 else 3

/-- SQLite `ASC` comparison on a nullable date column: `NULL` sorts
before every non-`NULL` value. -/
def dateLeNullsFirst : Option ℤ → Option ℤ → Prop
  | none, _ => True
  | some _, none => False
  | some d, some e => d ≤ e

instance : DecidableRel dateLeNullsFirst := fun a b =>
  match a, b with
  | none, _ => .isTrue trivial
  | some _, none => .isFalse id
  | some d, some e => inferInstanceAs (Decidable (d ≤ e))

/-- The ORDER BY key comparison of `GET /alerts/low-stock`: rank CASE
first, then `predicted_run_out_date ASC` (SQLite: `NULL` first). -/
def alertOrder (a b : AlertItem) : Prop :=
  sortRank a < sortRank b ∨ (sortRank a = sortRank b ∧ dateLeNullsFirst a.runOutDate b.runOutDate)

instance : DecidableRel alertOrder := fun a b =>
  inferInstanceAs (Decidable (_ ∨ _))

lemma dateLeNullsFirst_total (x y : Option ℤ) :
    dateLeNullsFirst x y ∨ dateLeNullsFirst y x := by
  rcases x with _ | d <;> rcases y with _ | e
  · exact .inl trivial
  · exact .inl trivial
  · exact .inr trivial
  · exact (le_total d e).imp id id

lemma dateLeNullsFirst_trans (x y z : Option ℤ) (hxy : dateLeNullsFirst x y)
    (hyz : dateLeNullsFirst y z) : dateLeNullsFirst x z := by
  rcases x with _ | d <;> rcases y with _ | e <;> rcases z with _ | g <;>
    first
      | exact trivial
      | exact hxy.elim
      | exact hyz.elim
      | exact le_trans hxy hyz

instance : IsTotal AlertItem alertOrder where
  total a b := by
    rcases Nat.lt_trichotomy (sortRank a) (sortRank b) with h | h | h
    · exact .inl (.inl h)
    · rcases dateLeNullsFirst_total a.runOutDate b.runOutDate with hd | hd
      · exact .inl (.inr ⟨h, hd⟩)
      · exact .inr (.inr ⟨h.symm, hd⟩)
    · exact .inr (.inl h)

instance : IsTrans AlertItem alertOrder where
  trans a b c hab hbc := by
    rcases hab with hab | ⟨hab, hab'⟩
    · rcases hbc with hbc | ⟨hbc, _⟩
      · exact .inl (hab.trans hbc)
      · exact .inl (hbc ▸ hab)
    · rcases hbc with hbc | ⟨hbc, hbc'⟩
      · exact .inl (hab ▸ hbc)
      · exact .inr ⟨hab.trans hbc, dateLeNullsFirst_trans _ _ _ hab' hbc'⟩

/-- The result list of `GET /alerts/low-stock`: the rows passing the
WHERE clause, sorted by the ORDER BY key. -/
def lowStockAlerts (items : List AlertItem) : List AlertItem :=
  List.insertionSort alertOrder (items.filter includedInAlerts)

/-- Position of a tier in the spec's urgency order
`critical < low < warning < safe`. -/
def tierIdx : AlertLevel → ℕ
  | .critical => 0
  | .low => 1
  | .warning => 2
  | .safe => 3

/-- Modelled from the spec's words: ascending nullable-date comparison
with absent dates sorting last. -/
def dateLeNullsLast : Option ℤ → Option ℤ → Prop
  | _, none => True
  | none, some _ => False
  | some d, some e => d ≤ e

instance : DecidableRel dateLeNullsLast := fun a b =>
  match a, b with
  | none, none => .isTrue trivial
  | some _, none => .isTrue trivial
  | none, some _ => .isFalse id
  | some d, some e => inferInstanceAs (Decidable (d ≤ e))

/-- Modelled from the spec's words: the claimed sort order of the alerts
view — urgency tier first (most urgent first), then ascending run-out
date with absent dates last. -/
def specAlertOrder (a b : AlertItem) : Prop :=
  tierIdx (alertTier a) < tierIdx (alertTier b) ∨
    (alertTier a = alertTier b ∧ dateLeNullsLast a.runOutDate b.runOutDate)

instance : DecidableRel specAlertOrder := fun a b =>
  inferInstanceAs (Decidable (_ ∨ _))

/-- The claimed sort order amended at the one point the code differs:
absent run-out dates sort first, as SQLite's `ASC` places `NULL` first. -/
def specAlertOrderNullsFirst (a b : AlertItem) : Prop :=
  tierIdx (alertTier a) < tierIdx (alertTier b) ∨
    (alertTier a = alertTier b ∧ dateLeNullsFirst a.runOutDate b.runOutDate)

instance : DecidableRel specAlertOrderNullsFirst := fun a b =>
  inferInstanceAs (Decidable (_ ∨ _))

/-! ### Helper lemmas -/

lemma round2_mono {q r : ℚ} (h : q ≤ r) : round2 q ≤ round2 r := by
  have h1 : (⌊q * 100 + 1/2⌋ : ℤ) ≤ ⌊r * 100 + 1/2⌋ := Int.floor_mono (by linarith)
  have h2 : ((⌊q * 100 + 1/2⌋ : ℤ) : ℚ) ≤ ((⌊r * 100 + 1/2⌋ : ℤ) : ℚ) := Int.cast_le.mpr h1
  unfold round2 jsRound
  exact (div_le_div_right (by norm_num)).mpr h2

/-- Rounding `round2` fixes every rational with at most two decimal places. -/
lemma round2_eq_self {q : ℚ} (z : ℤ) (hz : q * 100 = (z : ℚ)) : round2 q = q := by
  unfold round2 jsRound
  rw [hz]
  have h0 : ⌊(1/2 : ℚ)⌋ = 0 := Int.floor_eq_iff.mpr (by norm_num)
  have hfloor : ⌊(z : ℚ) + 1/2⌋ = z := by
    rw [add_comm, Int.floor_add_int, h0, zero_add]
  rw [hfloor, ← hz, mul_div_assoc]
  norm_num

lemma ratSqrt_zero : Rat.sqrt 0 = 0 := by
  simpa using Rat.sqrt_natCast 0

lemma drop_replicate_q (i n : ℕ) (c : ℚ) :
    (List.replicate n c).drop i = List.replicate (n - i) c := by
  induction i generalizing n with
  | zero => simp
  | succ m ih =>
    cases n with
    | zero => simp
    | succ k => rw [List.replicate_succ, List.drop_succ_cons, ih, Nat.succ_sub_succ]

lemma sliceLast_replicate (n k : ℕ) (c : ℚ) :
    sliceLast (List.replicate n c) k = List.replicate (min k n) c := by
  unfold sliceLast
  rw [List.length_replicate, drop_replicate_q]
  congr 1
  omega

lemma calculateMovingAverage_replicate (n k : ℕ) (c : ℚ) (hkn : k ≤ n) (hk : k ≠ 0) :
    calculateMovingAverage (List.replicate n c) k = c := by
  unfold calculateMovingAverage
  rw [List.length_replicate, if_neg (by omega), sliceLast_replicate, min_eq_left hkn,
    List.sum_replicate, nsmul_eq_mul]
  have hkq : (k : ℚ) ≠ 0 := Nat.cast_ne_zero.mpr hk
  rw [mul_comm, mul_div_assoc, div_self hkq, mul_one]

lemma getD_replicate_q {n i : ℕ} (c : ℚ) (h : i < n) :
    (List.replicate n c).getD i 0 = c := by
  simp [List.getD_eq_getElem?_getD, List.getElem?_replicate_of_lt h]

lemma trendSumY_replicate (n : ℕ) (c : ℚ) : trendSumY (List.replicate n c) = n * c := by
  unfold trendSumY
  rw [List.length_replicate,
    Finset.sum_congr rfl fun i hi => getD_replicate_q c (Finset.mem_range.mp hi),
    Finset.sum_const, Finset.card_range, nsmul_eq_mul]

lemma trendSumXY_replicate (n : ℕ) (c : ℚ) :
    trendSumXY (List.replicate n c) = trendSumX (List.replicate n c) * c := by
  unfold trendSumXY trendSumX
  rw [List.length_replicate]
  calc (Finset.sum (Finset.range n) fun i => (i : ℚ) * (List.replicate n c).getD i 0)
      = Finset.sum (Finset.range n) fun i => (i : ℚ) * c :=
        Finset.sum_congr rfl fun i hi => by rw [getD_replicate_q c (Finset.mem_range.mp hi)]
    _ = (Finset.sum (Finset.range n) fun i => (i : ℚ)) * c := by rw [← Finset.sum_mul]

lemma calculateLinearTrend_replicate (n : ℕ) (c : ℚ) :
    calculateLinearTrend (List.replicate n c) = 0 := by
  unfold calculateLinearTrend
  split_ifs with h
  · rfl
  · rw [List.length_replicate, trendSumXY_replicate, trendSumY_replicate,
      show (n : ℚ) * (trendSumX (List.replicate n c) * c) -
          trendSumX (List.replicate n c) * ((n : ℚ) * c) = 0 by ring]
    exact zero_div _

lemma calculateSeasonalFactor_bounds (l : List ℚ) :
    1/2 ≤ calculateSeasonalFactor l ∧ calculateSeasonalFactor l ≤ 2 := by
  by_cases h1 : l.length < 14
  · unfold calculateSeasonalFactor
    rw [if_pos h1]
    norm_num
  · unfold calculateSeasonalFactor
    rw [if_neg h1]
    show 1/2 ≤ (if 0 < calculateMovingAverage l l.length then
          max (1/2) (min 2 (calculateMovingAverage (sliceLast l 7) 7 /
            calculateMovingAverage l l.length))
        else 1) ∧
      (if 0 < calculateMovingAverage l l.length then
          max (1/2) (min 2 (calculateMovingAverage (sliceLast l 7) 7 /
            calculateMovingAverage l l.length))
        else 1) ≤ 2
    by_cases h2 : 0 < calculateMovingAverage l l.length
    · rw [if_pos h2]
      exact ⟨le_max_left _ _, max_le (by norm_num) (min_le_left _ _)⟩
    · rw [if_neg h2]
      norm_num

lemma calculateVariability_nonneg (l : List ℚ) : 0 ≤ calculateVariability l := by
  unfold calculateVariability
  split_ifs
  · exact le_refl 0
  · exact Rat.sqrt_nonneg _

/-! ### Claims -/

/-- C8: for the empty sales history and every current stock and reorder
point, `predictStockDepletion` does not fail and returns exactly sales
velocity `0`, no run-out date, confidence `0`, and seasonal factor `1.0`. -/
theorem C8_empty_history (cs rp : ℚ) :
    predictStockDepletion cs [] rp =
      { salesVelocity := 0, predictedRunOutDate := none, confidenceScore := 0,
        seasonalFactor := 1 } := rfl

/-- C1 counterexample: the claim says `salesVelocity ≥ 0.1` for every
input including the empty history, but on the empty history the code
returns `salesVelocity = 0 < 0.1`. -/
theorem C1_counterexample :
    ¬ (1/10 ≤ (predictStockDepletion 10 [] 5).salesVelocity) := by
  show ¬ ((1 : ℚ)/10 ≤ 0)
  norm_num

/-- C1 amended: for every current stock, reorder point and NON-EMPTY
sales history, the returned `salesVelocity` is at least `0.1`. -/
theorem C1_velocity_floor (cs rp : ℚ) (l : List ℚ) (h : l ≠ []) :
    1/10 ≤ (predictStockDepletion cs l rp).salesVelocity := by
  have hlen : ¬ l.length = 0 := by simpa using h
  unfold predictStockDepletion
  rw [if_neg hlen]
  show (1:ℚ)/10 ≤ round2 (rawSalesVelocity l)
  calc (1:ℚ)/10 = round2 (1/10) := (round2_eq_self 10 (by norm_num)).symm
    _ ≤ round2 (rawSalesVelocity l) := round2_mono (le_max_left _ _)

/-- Witness for C1: the floor is attained on a one-entry history. -/
theorem C1_velocity_floor_witness :
    1/10 ≤ (predictStockDepletion 1 [3] 0).salesVelocity :=
  C1_velocity_floor 1 0 [3] (by decide)

/-- C2: 30 consecutive daily entries of `quantitySold = 2` with
`currentStock = 60`, `reorderPoint = 20` give moving average `2`, trend
slope `0`, seasonal factor `1.0`, sales velocity `2`, 30 days until
run-out, run-out date today plus 30 days, and confidence `1.0`. -/
theorem C2_scenario_constant_sales :
    calculateMovingAverage (List.replicate 30 (2:ℚ)) 7 = 2 ∧
    calculateLinearTrend (sliceLast (List.replicate 30 (2:ℚ)) 14) = 0 ∧
    calculateSeasonalFactor (List.replicate 30 (2:ℚ)) = 1 ∧
    (60:ℚ) / rawSalesVelocity (List.replicate 30 (2:ℚ)) = 30 ∧
    predictStockDepletion 60 (List.replicate 30 (2:ℚ)) 20 =
      { salesVelocity := 2, predictedRunOutDate := some 30, confidenceScore := 1,
        seasonalFactor := 1 } := by
  have hMA : calculateMovingAverage (List.replicate 30 (2:ℚ)) 7 = 2 :=
    calculateMovingAverage_replicate 30 7 2 (by norm_num) (by norm_num)
  have hsl14 : sliceLast (List.replicate 30 (2:ℚ)) 14 = List.replicate 14 2 := by
    rw [sliceLast_replicate, min_eq_left (by norm_num : (14:ℕ) ≤ 30)]
  have hsl7 : sliceLast (List.replicate 30 (2:ℚ)) 7 = List.replicate 7 2 := by
    rw [sliceLast_replicate, min_eq_left (by norm_num : (7:ℕ) ≤ 30)]
  have htrend : calculateLinearTrend (sliceLast (List.replicate 30 (2:ℚ)) 14) = 0 := by
    rw [hsl14]
    exact calculateLinearTrend_replicate 14 2
  have hrec : calculateMovingAverage (sliceLast (List.replicate 30 (2:ℚ)) 7) 7 = 2 := by
    rw [hsl7]
    exact calculateMovingAverage_replicate 7 7 2 le_rfl (by norm_num)
  have hhist : calculateMovingAverage (List.replicate 30 (2:ℚ))
      (List.replicate 30 (2:ℚ)).length = 2 := by
    rw [List.length_replicate]
    exact calculateMovingAverage_replicate 30 30 2 le_rfl (by norm_num)
  have hseason : calculateSeasonalFactor (List.replicate 30 (2:ℚ)) = 1 := by
    unfold calculateSeasonalFactor
    rw [if_neg (by simp)]
    show (if 0 < calculateMovingAverage (List.replicate 30 (2:ℚ))
          (List.replicate 30 (2:ℚ)).length then
        max (1/2) (min 2 (calculateMovingAverage (sliceLast (List.replicate 30 (2:ℚ)) 7) 7 /
          calculateMovingAverage (List.replicate 30 (2:ℚ)) (List.replicate 30 (2:ℚ)).length))
      else 1) = 1
    rw [hrec, hhist, if_pos (by norm_num : (0:ℚ) < 2),
      show (2:ℚ)/2 = 1 by norm_num,
      min_eq_right (by norm_num : (1:ℚ) ≤ 2), max_eq_right (by norm_num : (1:ℚ)/2 ≤ 1)]
  have hraw : rawSalesVelocity (List.replicate 30 (2:ℚ)) = 2 := by
    unfold rawSalesVelocity
    rw [hMA, htrend, hseason, show ((2:ℚ) + 0 * (1/2)) * 1 = 2 by ring]
    exact max_eq_right (by norm_num)
  have hvar : calculateVariability (List.replicate 30 (2:ℚ)) = 0 := by
    unfold calculateVariability
    rw [if_neg (by simp)]
    show Rat.sqrt ((List.map
        (fun q => (q - (List.replicate 30 (2:ℚ)).sum / ((List.replicate 30 (2:ℚ)).length : ℚ)) ^ 2)
        (List.replicate 30 (2:ℚ))).sum / ((List.replicate 30 (2:ℚ)).length : ℚ)) = 0
    rw [List.map_replicate, List.length_replicate,
      show (List.replicate 30 (2:ℚ)).sum = 60 by
        rw [List.sum_replicate, nsmul_eq_mul]; norm_num,
      List.sum_replicate, nsmul_eq_mul,
      show ((30:ℕ):ℚ) * ((2:ℚ) - 60 / ((30:ℕ):ℚ)) ^ 2 / ((30:ℕ):ℚ) = 0 by push_cast; norm_num]
    exact ratSqrt_zero
  refine ⟨hMA, htrend, hseason, ?_, ?_⟩
  · rw [hraw]
    norm_num
  · unfold predictStockDepletion
    rw [if_neg (by simp)]
    show ({ salesVelocity := round2 (rawSalesVelocity (List.replicate 30 (2:ℚ))),
            predictedRunOutDate :=
              if 0 < (60:ℚ) / rawSalesVelocity (List.replicate 30 (2:ℚ)) ∧
                  (60:ℚ) / rawSalesVelocity (List.replicate 30 (2:ℚ)) < 365 then
                some ⌈(60:ℚ) / rawSalesVelocity (List.replicate 30 (2:ℚ))⌉
              else none,
            confidenceScore := round2 (min (((List.replicate 30 (2:ℚ)).length : ℚ) / 30) 1 *
              max 0 (1 - calculateVariability (List.replicate 30 (2:ℚ)) / 5)),
            seasonalFactor := round2 (calculateSeasonalFactor (List.replicate 30 (2:ℚ))) } :
          PredictionResult) = _
    rw [hraw, hvar, hseason, List.length_replicate,
      show (60:ℚ)/2 = 30 by norm_num,
      show ((30:ℕ):ℚ)/30 = 1 by push_cast; norm_num,
      show (1:ℚ) - 0/5 = 1 by norm_num,
      if_pos (by constructor <;> norm_num : (0:ℚ) < 30 ∧ (30:ℚ) < 365),
      min_self, max_eq_right (by norm_num : (0:ℚ) ≤ 1), mul_one,
      round2_eq_self 200 (by norm_num), round2_eq_self 100 (by norm_num),
      show ((30:ℚ)) = ((30:ℤ):ℚ) by norm_num, Int.ceil_intCast]

/-- C5: for every non-empty history, with `d = currentStock` divided by
the computed (unrounded) sales velocity, the run-out date is absent
exactly when `d ≤ 0` or `d ≥ 365`, and otherwise equals today plus
`⌈d⌉` days. -/
theorem C5_run_out_horizon (cs : ℚ) (l : List ℚ) (rp : ℚ) (h : l ≠ []) :
    ((predictStockDepletion cs l rp).predictedRunOutDate = none ↔
        cs / rawSalesVelocity l ≤ 0 ∨ 365 ≤ cs / rawSalesVelocity l) ∧
    (0 < cs / rawSalesVelocity l → cs / rawSalesVelocity l < 365 →
        (predictStockDepletion cs l rp).predictedRunOutDate =
          some ⌈cs / rawSalesVelocity l⌉) := by
  have hlen : ¬ l.length = 0 := by simpa using h
  unfold predictStockDepletion
  rw [if_neg hlen]
  constructor
  · show (if 0 < cs / rawSalesVelocity l ∧ cs / rawSalesVelocity l < 365
        then some ⌈cs / rawSalesVelocity l⌉ else none) = none ↔ _
    split_ifs with hc
    · simp only [reduceCtorEq, false_iff]
      push_neg
      exact hc
    · simp only [true_iff]
      rcases not_and_or.mp hc with h1 | h1
      · exact .inl (not_lt.mp h1)
      · exact .inr (not_lt.mp h1)
  · intro h1 h2
    show (if 0 < cs / rawSalesVelocity l ∧ cs / rawSalesVelocity l < 365
        then some ⌈cs / rawSalesVelocity l⌉ else none) = some ⌈cs / rawSalesVelocity l⌉
    rw [if_pos ⟨h1, h2⟩]

/-- Witness for C5: a week of constant sales of 5 with stock 60 gives a
velocity of 5 and a run-out date 12 days out. -/
theorem C5_run_out_horizon_witness :
    ((predictStockDepletion 60 [5, 5, 5, 5, 5, 5, 5] 0).predictedRunOutDate = none ↔
        (60:ℚ) / rawSalesVelocity [5, 5, 5, 5, 5, 5, 5] ≤ 0 ∨
          365 ≤ (60:ℚ) / rawSalesVelocity [5, 5, 5, 5, 5, 5, 5]) ∧
    (0 < (60:ℚ) / rawSalesVelocity [5, 5, 5, 5, 5, 5, 5] →
        (60:ℚ) / rawSalesVelocity [5, 5, 5, 5, 5, 5, 5] < 365 →
        (predictStockDepletion 60 [5, 5, 5, 5, 5, 5, 5] 0).predictedRunOutDate =
          some ⌈(60:ℚ) / rawSalesVelocity [5, 5, 5, 5, 5, 5, 5]⌉) :=
  C5_run_out_horizon 60 [5, 5, 5, 5, 5, 5, 5] 0 (by decide)

/-- C6: `classify` returns `critical` when `currentStock ≤ 0` (hence in
particular when it is `0`, regardless of reorder point or prediction),
`low` when `0 < currentStock ≤ reorderPoint`, `warning` when stock is
above the reorder point and the run-out date is at most 7 days from
today, and `safe` otherwise. -/
theorem C6_classify (stock rp : ℤ) (runOut : Option ℤ) (hrp : 0 ≤ rp) :
    (stock ≤ 0 → alertLevel stock rp runOut = .critical) ∧
    (0 < stock → stock ≤ rp → alertLevel stock rp runOut = .low) ∧
    (rp < stock → ∀ d, runOut = some d → d ≤ 7 → alertLevel stock rp runOut = .warning) ∧
    (rp < stock → (∀ d, runOut = some d → 7 < d) → alertLevel stock rp runOut = .safe) := by
  refine ⟨fun h => ?_, fun h1 h2 => ?_, fun h1 d hd h7 => ?_, fun h1 h7 => ?_⟩ <;>
    unfold alertLevel
  · rw [if_pos h]
  · rw [if_neg (by omega), if_pos h2]
  · subst hd
    rw [if_neg (by omega), if_neg (by omega), if_pos (by simp [dueWithin, h7])]
  · rcases hn : runOut with _ | d
    · rw [if_neg (by omega), if_neg (by omega), if_neg (by simp [dueWithin])]
    · have h8 := h7 d hn
      rw [if_neg (by omega), if_neg (by omega),
        if_neg (by simp only [dueWithin, decide_eq_true_eq]; omega)]

/-- Witness for C6: one concrete item per tier. -/
theorem C6_classify_witness :
    alertLevel 0 5 (some 100) = .critical ∧ alertLevel 3 5 none = .low ∧
    alertLevel 9 5 (some 6) = .warning ∧ alertLevel 9 5 (some 20) = .safe :=
  ⟨(C6_classify 0 5 (some 100) (by omega)).1 (by omega),
   (C6_classify 3 5 none (by omega)).2.1 (by omega) (by omega),
   (C6_classify 9 5 (some 6) (by omega)).2.2.1 (by omega) 6 rfl (by omega),
   (C6_classify 9 5 (some 20) (by omega)).2.2.2 (by omega) (fun d hd => by cases hd; omega)⟩

/-- C7: every prediction's `seasonalFactor` lies in `[0.5, 2.0]` — and
equals `1.0` when there are fewer than 14 data points or the historical
average is `0` — and its `confidenceScore` lies in `[0, 1]`. -/
theorem C7_clamped_ranges (cs : ℚ) (l : List ℚ) (rp : ℚ) :
    (1/2 ≤ (predictStockDepletion cs l rp).seasonalFactor ∧
      (predictStockDepletion cs l rp).seasonalFactor ≤ 2) ∧
    (0 ≤ (predictStockDepletion cs l rp).confidenceScore ∧
      (predictStockDepletion cs l rp).confidenceScore ≤ 1) ∧
    ((l.length < 14 ∨ calculateMovingAverage l l.length = 0) →
      (predictStockDepletion cs l rp).seasonalFactor = 1) := by
  by_cases hlen : l.length = 0
  · unfold predictStockDepletion
    rw [if_pos hlen]
    exact ⟨⟨by norm_num, by norm_num⟩, ⟨le_refl 0, by norm_num⟩, fun _ => rfl⟩
  · have hsf : calculateSeasonalFactor l = 1 →
        round2 (calculateSeasonalFactor l) = 1 := fun h => by
      rw [h]
      exact round2_eq_self 100 (by norm_num)
    unfold predictStockDepletion
    rw [if_neg hlen]
    have hs := calculateSeasonalFactor_bounds l
    refine ⟨⟨?_, ?_⟩, ⟨?_, ?_⟩, ?_⟩
    · show 1/2 ≤ round2 (calculateSeasonalFactor l)
      calc (1:ℚ)/2 = round2 (1/2) := (round2_eq_self 50 (by norm_num)).symm
        _ ≤ round2 (calculateSeasonalFactor l) := round2_mono hs.1
    · show round2 (calculateSeasonalFactor l) ≤ 2
      calc round2 (calculateSeasonalFactor l) ≤ round2 2 := round2_mono hs.2
        _ = 2 := round2_eq_self 200 (by norm_num)
    · show 0 ≤ round2 (min ((l.length : ℚ) / 30) 1 * max 0 (1 - calculateVariability l / 5))
      have hb : (0:ℚ) ≤ min ((l.length : ℚ) / 30) 1 := le_min (by positivity) (by norm_num)
      have hp : (0:ℚ) ≤ max 0 (1 - calculateVariability l / 5) := le_max_left _ _
      calc (0:ℚ) = round2 0 := (round2_eq_self 0 (by norm_num)).symm
        _ ≤ _ := round2_mono (mul_nonneg hb hp)
    · show round2 (min ((l.length : ℚ) / 30) 1 * max 0 (1 - calculateVariability l / 5)) ≤ 1
      have hb0 : (0:ℚ) ≤ min ((l.length : ℚ) / 30) 1 := le_min (by positivity) (by norm_num)
      have hb1 : min ((l.length : ℚ) / 30) 1 ≤ 1 := min_le_right _ _
      have hp0 : (0:ℚ) ≤ max 0 (1 - calculateVariability l / 5) := le_max_left _ _
      have hp1 : max 0 (1 - calculateVariability l / 5) ≤ 1 := by
        have hv := calculateVariability_nonneg l
        apply max_le (by norm_num)
        linarith
      calc round2 (min ((l.length : ℚ) / 30) 1 * max 0 (1 - calculateVariability l / 5))
          ≤ round2 1 := round2_mono (by nlinarith)
        _ = 1 := round2_eq_self 100 (by norm_num)
    · intro hc
      show round2 (calculateSeasonalFactor l) = 1
      apply hsf
      unfold calculateSeasonalFactor
      rcases hc with hc | hc
      · rw [if_pos hc]
      · by_cases h14 : l.length < 14
        · rw [if_pos h14]
        · rw [if_neg h14]
          show (if 0 < calculateMovingAverage l l.length then
              max (1/2) (min 2 (calculateMovingAverage (sliceLast l 7) 7 /
                calculateMovingAverage l l.length))
            else 1) = 1
          rw [if_neg (by rw [hc]; exact lt_irrefl 0)]

/-- Witness for C7: on the empty history the seasonal factor is `1`. -/
theorem C7_clamped_ranges_witness :
    (1/2 ≤ (predictStockDepletion 5 [] 3).seasonalFactor ∧
      (predictStockDepletion 5 [] 3).seasonalFactor ≤ 2) ∧
    (0 ≤ (predictStockDepletion 5 [] 3).confidenceScore ∧
      (predictStockDepletion 5 [] 3).confidenceScore ≤ 1) ∧
    (predictStockDepletion 5 [] 3).seasonalFactor = 1 :=
  ⟨(C7_clamped_ranges 5 [] 3).1, (C7_clamped_ranges 5 [] 3).2.1,
   (C7_clamped_ranges 5 [] 3).2.2 (Or.inl (by simp))⟩

/-- Closed form of `trendSumX`. -/
lemma sum_range_cast (n : ℕ) :
    (Finset.sum (Finset.range n) fun i => (i:ℚ)) = n * (n - 1) / 2 := by
  induction n with
  | zero => norm_num
  | succ m ih =>
    rw [Finset.sum_range_succ, ih]
    push_cast
    ring

/-- Closed form of `trendSumX2`. -/
lemma sum_range_sq_cast (n : ℕ) :
    (Finset.sum (Finset.range n) fun i => (i:ℚ) * (i:ℚ)) = n * (n - 1) * (2 * n - 1) / 6 := by
  induction n with
  | zero => norm_num
  | succ m ih =>
    rw [Finset.sum_range_succ, ih]
    push_cast
    ring

/-- Closed form of the least-squares denominator. -/
lemma trendDenominator_eq (l : List ℚ) :
    trendDenominator l =
      (l.length : ℚ) ^ 2 * ((l.length : ℚ) - 1) * ((l.length : ℚ) + 1) / 12 := by
  unfold trendDenominator trendSumX trendSumX2
  rw [sum_range_cast, sum_range_sq_cast]
  ring

/-- C10: with at least 2 data points the least-squares denominator
`n * sumX2 - sumX * sumX` is strictly positive (the indices are
distinct), so the slope division never divides by zero; with fewer than
2 points the trend is `0`, so the function is total. -/
theorem C10_trend_denominator_pos (l : List ℚ) :
    (2 ≤ l.length → 0 < trendDenominator l) ∧
    (l.length < 2 → calculateLinearTrend l = 0) := by
  constructor
  · intro h
    have hn : (2:ℚ) ≤ (l.length : ℚ) := by exact_mod_cast h
    rw [trendDenominator_eq]
    apply div_pos _ (by norm_num)
    have h1 : (0:ℚ) < (l.length : ℚ) := by linarith
    have h2 : (0:ℚ) < (l.length : ℚ) - 1 := by linarith
    have h3 : (0:ℚ) < (l.length : ℚ) + 1 := by linarith
    have h4 : (0:ℚ) < (l.length : ℚ) ^ 2 := by positivity
    exact mul_pos (mul_pos h4 h2) h3
  · intro h
    unfold calculateLinearTrend
    rw [if_pos h]

/-- Witness for C10: a two-point history has positive denominator, a
one-point history has trend `0`. -/
theorem C10_trend_denominator_pos_witness :
    0 < trendDenominator [1, 2] ∧ calculateLinearTrend [5] = 0 :=
  ⟨(C10_trend_denominator_pos [1, 2]).1 (by norm_num),
   (C10_trend_denominator_pos [5]).2 (by norm_num)⟩

lemma chartPoint_date (cs rp v : ℚ) (f : ℤ → ℚ) (days : ℕ) (i : ℤ) :
    (chartPoint cs rp v f days i).date = i := by
  unfold chartPoint
  split_ifs <;> rfl

lemma chartPoint_threshold (cs rp v : ℚ) (f : ℤ → ℚ) (days : ℕ) (i : ℤ) :
    (chartPoint cs rp v f days i).threshold = rp := by
  unfold chartPoint
  split_ifs <;> rfl

lemma chartPoint_future (cs rp v : ℚ) (f : ℤ → ℚ) (days : ℕ) {i : ℤ} (h : 0 < i) :
    (chartPoint cs rp v f days i).actual = none ∧
    (chartPoint cs rp v f days i).predicted = some (max 0 (cs - v * (i : ℚ))) := by
  unfold chartPoint
  rw [if_neg (not_le.mpr h)]
  exact ⟨rfl, rfl⟩

/-- C9: for every window, the chart has exactly `2·windowDays + 1`
points in ascending date order, the threshold is the reorder point at
every point, every future point has no `actual` and
`predicted = max(0, currentStock - salesVelocity·offset)`, and for a
positive velocity the future `predicted` values are non-increasing. -/
theorem C9_chart_projection (cs rp v : ℚ) (f : ℤ → ℚ) (days : ℕ) :
    (chartData cs rp v f days).length = 2 * days + 1 ∧
    (chartData cs rp v f days).Pairwise (fun p q => p.date < q.date) ∧
    (∀ p ∈ chartData cs rp v f days, p.threshold = rp) ∧
    (∀ p ∈ chartData cs rp v f days, 0 < p.date →
      p.actual = none ∧ p.predicted = some (max 0 (cs - v * (p.date : ℚ)))) ∧
    (0 < v → ∀ p ∈ chartData cs rp v f days, ∀ q ∈ chartData cs rp v f days,
      0 < p.date → p.date ≤ q.date → ∀ x y,
        p.predicted = some x → q.predicted = some y → y ≤ x) := by
  refine ⟨?_, ?_, ?_, ?_, ?_⟩
  · unfold chartData
    rw [List.length_map, List.length_range]
  · unfold chartData
    refine List.Pairwise.map _ ?_ (List.pairwise_lt_range _)
    intro a b hab
    rw [chartPoint_date, chartPoint_date]
    omega
  · intro p hp
    obtain ⟨k, hk, rfl⟩ := List.mem_map.mp hp
    exact chartPoint_threshold cs rp v f days _
  · intro p hp hpos
    obtain ⟨k, hk, rfl⟩ := List.mem_map.mp hp
    rw [chartPoint_date] at hpos ⊢
    exact chartPoint_future cs rp v f days hpos
  · intro hv p hp q hq hpos hle x y hx hy
    obtain ⟨a, ha, rfl⟩ := List.mem_map.mp hp
    obtain ⟨b, hb, rfl⟩ := List.mem_map.mp hq
    rw [chartPoint_date] at hpos
    rw [chartPoint_date, chartPoint_date] at hle
    have hjpos : (0:ℤ) < (b : ℤ) - (days : ℤ) := lt_of_lt_of_le hpos hle
    rw [(chartPoint_future cs rp v f days hpos).2] at hx
    rw [(chartPoint_future cs rp v f days hjpos).2] at hy
    injection hx with hx
    injection hy with hy
    subst hx
    subst hy
    apply max_le_max (le_refl (0:ℚ))
    have hij : (((a : ℤ) - (days : ℤ) : ℤ) : ℚ) ≤ (((b : ℤ) - (days : ℤ) : ℤ) : ℚ) := by
      exact_mod_cast hle
    have hm := mul_le_mul_of_nonneg_left hij (le_of_lt hv)
    linarith

/-- Witness for C9: in a 5-point chart with stock 10 and velocity 1, the
point one day out has threshold 3 and its predicted value 9 bounds the
next day's 8. -/
theorem C9_chart_projection_witness :
    (⟨1, none, some 9, 3⟩ : ChartPoint).threshold = 3 ∧ (8:ℚ) ≤ 9 := by
  have hpt1 : chartPoint 10 3 1 (fun _ => 0) 2 (((3:ℕ) : ℤ) - ((2:ℕ) : ℤ)) =
      (⟨1, none, some 9, 3⟩ : ChartPoint) := by
    unfold chartPoint
    rw [if_neg (by norm_num)]
    norm_num [ChartPoint.mk.injEq, max_eq_right]
  have hpt2 : chartPoint 10 3 1 (fun _ => 0) 2 (((4:ℕ) : ℤ) - ((2:ℕ) : ℤ)) =
      (⟨2, none, some 8, 3⟩ : ChartPoint) := by
    unfold chartPoint
    rw [if_neg (by norm_num)]
    norm_num [ChartPoint.mk.injEq, max_eq_right]
  have hmem1 : (⟨1, none, some 9, 3⟩ : ChartPoint) ∈ chartData 10 3 1 (fun _ => 0) 2 :=
    List.mem_map.mpr ⟨3, List.mem_range.mpr (by norm_num), hpt1⟩
  have hmem2 : (⟨2, none, some 8, 3⟩ : ChartPoint) ∈ chartData 10 3 1 (fun _ => 0) 2 :=
    List.mem_map.mpr ⟨4, List.mem_range.mpr (by norm_num), hpt2⟩
  have h := C9_chart_projection 10 3 1 (fun _ => 0) 2
  exact ⟨h.2.2.1 ⟨1, none, some 9, 3⟩ hmem1,
    h.2.2.2.2 (by norm_num : (0:ℚ) < 1) ⟨1, none, some 9, 3⟩ hmem1 ⟨2, none, some 8, 3⟩ hmem2
      (by decide) (by decide) 9 8 rfl rfl⟩

/-- C3: the claim (and the spec's contract) says past `actual` values
reconstruct the stock curve backward from current stock — in particular
`actual` at offset `0` equals `currentStock` — but the code multiplies a
single day's sales by `windowDays + offset` instead of accumulating.
With `windowDays = 1`, `currentStock = 10` and 2 units sold today, the
code produces `actual = [10, 12, –]` over offsets `[-1, 0, +1]`, whereas
the claim requires `[12, 10, –]`: `actual` today is `12 ≠ 10`. -/
theorem C3_chart_actual_code_bug :
    (chartData 10 3 1 (fun i => if i = 0 then 2 else 0) 1).map ChartPoint.actual =
      [some 10, some 12, none] := by
  norm_num [chartData, chartPoint, List.range_succ]

lemma alertOrder_imp_spec {a b : AlertItem} (ha : includedInAlerts a = true)
    (hb : includedInAlerts b = true) (hab : alertOrder a b) :
    specAlertOrderNullsFirst a b := by
  obtain ⟨sa, ra, da⟩ := a
  obtain ⟨sb, rb, db⟩ := b
  simp only [alertOrder, sortRank, includedInAlerts, dueWithin, Bool.or_eq_true,
    decide_eq_true_eq, specAlertOrderNullsFirst, alertTier, alertLevel, tierIdx] at *
  rcases da with _ | xa <;> rcases db with _ | xb <;>
    split_ifs at * <;>
    simp_all [dateLeNullsFirst, tierIdx] <;>
    omega

/-- C4 counterexample: the claim says absent run-out dates sort last,
but SQLite's `ASC` places `NULL` first: among two `low` items, the one
with no run-out date precedes the one with date 3, so the output is not
pairwise ordered by the claimed relation. -/
theorem C4_counterexample :
    ¬ (lowStockAlerts [⟨5, 10, some 3⟩, ⟨5, 10, none⟩]).Pairwise specAlertOrder := by
  decide

/-- C4 amended: the alerts view contains exactly the items with
`currentStock ≤ reorderPoint` or run-out date within 14 days, and is
sorted by urgency tier `critical < low < warning < safe` first, then by
ascending run-out date with absent dates sorting FIRST. -/
theorem C4_alerts_view (items : List AlertItem) :
    (∀ a, a ∈ lowStockAlerts items ↔ a ∈ items ∧ includedInAlerts a = true) ∧
    (lowStockAlerts items).Pairwise specAlertOrderNullsFirst := by
  constructor
  · intro a
    unfold lowStockAlerts
    rw [List.mem_insertionSort alertOrder]
    exact List.mem_filter
  · have hs : (List.insertionSort alertOrder (items.filter includedInAlerts)).Pairwise
        alertOrder :=
      List.sorted_insertionSort alertOrder (items.filter includedInAlerts)
    refine hs.imp_of_mem ?_
    intro x y hx hy hxy
    have hx' : includedInAlerts x = true :=
      (List.mem_filter.mp ((List.mem_insertionSort alertOrder).mp hx)).2
    have hy' : includedInAlerts y = true :=
      (List.mem_filter.mp ((List.mem_insertionSort alertOrder).mp hy)).2
    exact alertOrder_imp_spec hx' hy' hxy

end Inventory
